import Mathlib

/-!
Verification development for the overload-pay calculator in `peachy2.py`.

The program is a single-pass pipeline over a tabular input:
schema validation, numeric normalization, course-eligibility filtering,
threshold resolution, overload arithmetic and per-staff aggregation.
The definitions below are a shallow embedding of `process_data` and its
helper closures `is_relevant_course` and `get_base_students`.

Modelling conventions:
* a dataframe cell is a string, an exact rational number, or `nan`
  (pandas missing value);
* a row is an association list from column names to cells, a missing
  binding reads as `nan`;
* `pd.to_numeric(_, errors='coerce')` is `toNumericCell`, with a decimal
  string parser `parseNum`;
* floating point arithmetic is idealized as exact rational arithmetic and
  `.round(2)` as exact round-half-to-even at two decimals (`round2`);
* a Python ordering comparison between a string cell and a number raises
  a TypeError; such fallible computations return `Option`, with `none`
  for the raised exception, which the pipeline boundary turns into the
  generic processing error.
-/

set_option autoImplicit false

namespace Peachy

/-- A dataframe cell: a string, a numeric value, or a missing value (NaN). -/
inductive Cell where
  | str (s : String)
  | num (q : ℚ)
  | nan
deriving DecidableEq, Repr

/-- A dataframe row: bindings from column names to cells. -/
abbrev Row := List (String × Cell)

/-- A dataframe: the column list and the rows. -/
structure Table where
  cols : List String
  rows : List Row
deriving DecidableEq, Repr

/-- Read a column of a row; an absent binding is the missing value. -/
def getCell : Row → String → Cell
  | [], _ => Cell.nan
  | (c₀, v₀) :: r, c => if c₀ = c then v₀ else getCell r c

/-- Overwrite a column of a row (first binding wins, as in `getCell`). -/
def setCell : Row → String → Cell → Row
  | [], c, v => [(c, v)]
  | (c₀, v₀) :: r, c, v => if c₀ = c then (c, v) :: r else (c₀, v₀) :: setCell r c v

/-- Python's `str.upper()` (ASCII), character by character. -/
def strUpper (s : String) : String := ⟨s.toList.map Char.toUpper⟩

/-- Substring test on character lists: Python's `sub in hay`. -/
def hasSubstr (need : List Char) : List Char → Bool
  | [] => need.isEmpty
  | c :: t => need.isPrefixOf (c :: t) || hasSubstr need t

/-- Substring test on strings: Python's `sub in hay`. -/
def strContains (hay sub : String) : Bool :=
  hasSubstr sub.toList hay.toList

/-- Numeric value of a digit list, most significant first. -/
def natOfDigits (l : List Char) : ℕ :=
  l.foldl (fun a c => a * 10 + (c.toNat - 48)) 0

/-- A non-empty list of decimal digits. -/
def allDigits (l : List Char) : Bool :=
  !l.isEmpty && l.all Char.isDigit

/-- Parse an unsigned decimal literal (`"30"`, `"2.5"`, `".5"`, `"3."`). -/
def parseDecimal (l : List Char) : Option ℚ :=
  let ip := l.takeWhile (fun c => c != '.')
  let rest := l.dropWhile (fun c => c != '.')
  match rest with
  | [] => if allDigits ip then some ((natOfDigits ip : ℚ)) else none
  | _ :: fp =>
      if ip.all Char.isDigit && fp.all Char.isDigit && !(ip.isEmpty && fp.isEmpty) then
        some ((natOfDigits ip : ℚ) + (natOfDigits fp : ℚ) / ((10 : ℚ) ^ fp.length))
      else none

/-- Parse a signed decimal literal; `none` when the string is not a number. -/
def parseNum (s : String) : Option ℚ :=
  match s.toList with
  | '-' :: t => (parseDecimal t).map (fun q => -q)
  | '+' :: t => parseDecimal t
  | l => parseDecimal l

/-- `pd.to_numeric(cell, errors='coerce')`: numbers pass through, parseable
strings become numbers, everything else becomes NaN. -/
def toNumericCell : Cell → Cell
  | Cell.num q => Cell.num q
  | Cell.str s =>
      match parseNum s with
      | some q => Cell.num q
      | none => Cell.nan
  | Cell.nan => Cell.nan

/-- `.fillna(0)` on one cell. -/
def fillZero : Cell → Cell
  | Cell.nan => Cell.num 0
  | c => c

/-- Is the cell the missing value? -/
def isNan : Cell → Bool
  | Cell.nan => true
  | _ => false

/-- `df[col] = df[col].map f`, guarded by `if col in df.columns`
(lines 38-44 of `peachy2.py`). -/
def normCol (c : String) (f : Cell → Cell) (t : Table) : Table :=
  if t.cols.contains c then
    { cols := t.cols, rows := t.rows.map (fun r => setCell r c (f (getCell r c))) }
  else t

/-- The Type Normalizer (lines 38-44): coerce `Total Students` and
`Max Students` to numeric, then zero-fill only `Total Students`. -/
def normalize (t : Table) : Table :=
  normCol "Total Students" fillZero
    (normCol "Max Students" toNumericCell
      (normCol "Total Students" toNumericCell t))

/-- `df.dropna(subset=["Course Title", "Total Students"])` (line 47). -/
def droppedRows (t : Table) : List Row :=
  t.rows.filter (fun r =>
    !isNan (getCell r "Course Title") && !isNan (getCell r "Total Students"))

/-- The keyword test of `is_relevant_course` (line 55), on an already
uppercased title. -/
def kwB (u : String) : Bool :=
  strContains u "MUSIC" || strContains u "PHYS ED" || strContains u "ART" ||
    strContains u "CREATIVE"

/-- `pd.to_numeric(students, errors='coerce') > 0` (line 60). -/
def posNum (c : Cell) : Bool :=
  match toNumericCell c with
  | Cell.num q => decide (0 < q)
  | _ => false

/-- The enrollment re-lookup of `is_relevant_course` (lines 58-62): find the
first row whose stored `Course Title` equals `u` exactly (case-sensitively)
and test its `Total Students`; no match (`IndexError`) yields `false`. -/
def lookupPos (rows : List Row) (u : String) : Bool :=
  match rows.find? (fun r => decide (getCell r "Course Title" = Cell.str u)) with
  | some r₀ => posNum (getCell r₀ "Total Students")
  | none => false

/-- `is_relevant_course` (lines 50-62): non-strings fail, the title is
uppercased, the keyword test runs first, then the enrollment re-lookup
keyed by the uppercased title. -/
def is_relevant_course (rows : List Row) : Cell → Bool
  | Cell.str s =>
      let u := strUpper s
      if kwB u then lookupPos rows u else false
  | _ => false

/-- `df[df["Course Title"].apply(is_relevant_course)]` (line 64): the lookup
closure captures the same post-drop dataframe being filtered. -/
def filterRelevant (rows : List Row) : List Row :=
  rows.filter (fun r => is_relevant_course rows (getCell r "Course Title"))

/-- Eligible rows of a raw table: normalize, drop unusable rows, filter. -/
def relevantRows (t : Table) : List Row :=
  filterRelevant (droppedRows (normalize t))

/-- `get_base_students` (lines 71-82): threshold from title keywords,
first matching rule wins, non-strings default to 23. -/
def get_base_students : Cell → ℕ
  | Cell.str s =>
      let t := strUpper s
      if strContains t "MIXED" || strContains t " 1" || strContains t " 2" ||
          strContains t " 3" then 23
      else if strContains t " 4" || strContains t " 5" then 26
      else if strContains t "KINDER" || strContains t " K" then 22
      else 23
  | _ => 23

/-- Round a rational to the nearest integer, ties to the even integer
(the rounding used by `numpy`/pandas `.round`). -/
def rhalfEven (q : ℚ) : ℤ :=
  let n := ⌊q⌋
  let f := q - (n : ℚ)
  if f < 1 / 2 then n
  else if 1 / 2 < f then n + 1
  else if n % 2 = 0 then n else n + 1

/-- `round(x, 2)`: round-half-even at two decimal places. -/
def round2 (q : ℚ) : ℚ :=
  ((rhalfEven (q * 100) : ℚ)) / 100

/-- The sidebar configuration consumed by `process_data`. -/
structure Config where
  pay_rate : ℚ
  number_of_weeks : ℕ
deriving DecidableEq, Repr

/-- One row of `relevant_courses` after the `Base Students` column is added
(line 84): the original cells plus the resolved threshold and the
re-coerced student count. -/
structure Course where
  year : Cell
  organization : Cell
  title : Cell
  staff : Cell
  students : ℚ
  base : ℕ
deriving DecidableEq, Repr

/-- `pd.to_numeric(cell, errors='coerce').fillna(0)` read as a number
(line 87). -/
def rowStudents (r : Row) : ℚ :=
  match toNumericCell (getCell r "Total Students") with
  | Cell.num q => q
  | _ => 0

/-- Build the `Course` record of one eligible row. -/
def mkCourse (r : Row) : Course :=
  { year := getCell r "Year"
    organization := getCell r "Organization"
    title := getCell r "Course Title"
    staff := getCell r "Staff Name"
    students := rowStudents r
    base := get_base_students (getCell r "Course Title") }

/-- `(Total Students - Base Students).clip(lower=0).astype(int)`
(lines 89-90); `astype(int)` truncates, which on the clipped
(non-negative) value is the floor. -/
def totalOverload (c : Course) : ℕ :=
  (⌊max 0 (c.students - (c.base : ℚ))⌋).toNat

/-- `(Total Overload * pay_rate * number_of_weeks).round(2)` (lines 93-94). -/
def overloadPay (cfg : Config) (c : Course) : ℚ :=
  round2 ((totalOverload c : ℚ) * cfg.pay_rate * (cfg.number_of_weeks : ℚ))

/-- The distinct staff keys, in order of first appearance
(`groupby("Staff Name")`, line 100; ordering of keys is irrelevant to
every totals claim). -/
def staffKeys (cs : List Course) : List Cell :=
  (cs.map Course.staff).dedup

/-- The courses of one staff member, in order. -/
def coursesOf (cs : List Course) (k : Cell) : List Course :=
  cs.filter (fun c => decide (c.staff = k))

/-- `staff_totals["Total Overload"]` for one staff member (lines 100-102). -/
def staffOverload (cs : List Course) (k : Cell) : ℕ :=
  ((coursesOf cs k).map totalOverload).sum

/-- `staff_totals["Overload Pay"]` for one staff member (lines 100-102):
a plain sum of the per-course already-rounded pays, with no re-rounding. -/
def staffPay (cfg : Config) (cs : List Course) (k : Cell) : ℚ :=
  ((coursesOf cs k).map (overloadPay cfg)).sum

/-- `grand_total["totalOverload"]` (line 106). -/
def grandOverload (cs : List Course) : ℕ :=
  ((staffKeys cs).map (staffOverload cs)).sum

/-- `grand_total["overloadPay"]` (line 107). -/
def grandPay (cfg : Config) (cs : List Course) : ℚ :=
  ((staffKeys cs).map (staffPay cfg cs)).sum

/-- One row of `final_df` (lines 110-139): the exported cells plus the
`isSummary`/`isBlank` tags (absent tags read as false, as the NaN tags of
detail rows do under `== True`). -/
structure ReportRow where
  year : Cell
  organization : Cell
  title : Cell
  staff : Cell
  students : Cell
  base : Cell
  overload : Cell
  pay : Cell
  isSummary : Bool
  isBlank : Bool
deriving DecidableEq, Repr

/-- A detail row of `final_df` (line 116). -/
def detailRow (cfg : Config) (c : Course) : ReportRow :=
  { year := c.year
    organization := c.organization
    title := c.title
    staff := c.staff
    students := Cell.num c.students
    base := Cell.num ((c.base : ℚ))
    overload := Cell.num ((totalOverload c : ℚ))
    pay := Cell.num (overloadPay cfg c)
    isSummary := false
    isBlank := false }

/-- The summary row of one staff member (lines 119-131). -/
def summaryRow (cfg : Config) (cs : List Course) (k : Cell) : ReportRow :=
  { year := Cell.str ""
    organization := Cell.str ""
    title := Cell.str "TOTAL"
    staff := k
    students := Cell.str ""
    base := Cell.str ""
    overload := Cell.num ((staffOverload cs k : ℚ))
    pay := Cell.num (staffPay cfg cs k)
    isSummary := true
    isBlank := false }

/-- The blank separator row (lines 134-136): every exported cell is the
empty string. -/
def blankRow : ReportRow :=
  { year := Cell.str ""
    organization := Cell.str ""
    title := Cell.str ""
    staff := Cell.str ""
    students := Cell.str ""
    base := Cell.str ""
    overload := Cell.str ""
    pay := Cell.str ""
    isSummary := false
    isBlank := true }

/-- The rows emitted for one staff group (lines 114-136): detail rows,
then the summary row, then a blank row. -/
def staffBlock (cfg : Config) (cs : List Course) (k : Cell) : List ReportRow :=
  ((coursesOf cs k).map (detailRow cfg)) ++ [summaryRow cfg cs k, blankRow]

/-- `final_df` (line 139): the concatenation of all staff blocks. -/
def fullView (cfg : Config) (cs : List Course) : List ReportRow :=
  ((staffKeys cs).map (staffBlock cfg cs)).flatten

/-- The `Total Overload > 0` test of the non-zero filter (line 150) on one
cell. A number compares normally and the missing value compares false, but
a string — the blank rows hold the sentinel `""` in this column — raises a
TypeError in Python 3 (pandas ordering comparisons on object columns do
not mask str-vs-int errors); `none` models the raised exception. -/
def cellGtZero? : Cell → Option Bool
  | Cell.num q => some (decide (0 < q))
  | Cell.nan => some false
  | Cell.str _ => none

/-- The row predicate of the non-zero filter (lines 147-151). The boolean
tag comparisons never raise, but the whole predicate raises whenever the
`Total Overload > 0` comparison of line 150 does, because pandas computes
each operand column in full before the disjunction. -/
def keepNonZero? (r : ReportRow) : Option Bool :=
  (cellGtZero? r.overload).map (fun b => r.isBlank || r.isSummary || b)

/-- Filtering with a predicate whose comparison can raise: the first raise
aborts the whole filter. -/
def filterE (p : ReportRow → Option Bool) : List ReportRow → Option (List ReportRow)
  | [] => some []
  | r :: t =>
      match p r with
      | none => none
      | some b =>
          match filterE p t with
          | none => none
          | some l => some (if b then r :: l else l)

/-- `non_zero_df` (lines 147-151): `none` when the line-147 comparison
raises, which happens whenever `final_df` contains a blank row. -/
def nonZeroView? (cfg : Config) (cs : List Course) : Option (List ReportRow) :=
  filterE keepNonZero? (fullView cfg cs)

/-- The required columns, in the order checked (line 31). -/
def requiredColumns : List String :=
  ["Course Title", "Staff Name", "Total Students"]

/-- The first required column absent from the table, if any (lines 32-35). -/
def firstMissing (t : Table) : Option String :=
  requiredColumns.find? (fun c => !t.cols.contains c)

/-- The Schema Validator (lines 31-35): error on the first missing
required column, otherwise pass the table through unchanged. -/
def validate (t : Table) : Except String Table :=
  match firstMissing t with
  | some c => Except.error c
  | none => Except.ok t

/-- The output record returned on success (lines 160-165). -/
structure Output where
  data : List ReportRow
  nonZero : List ReportRow
  staffTotals : List (Cell × ℕ × ℚ)
  grandTotalOverload : ℕ
  grandTotalPay : ℚ
deriving DecidableEq, Repr

/-- The four terminal states of `process_data`: the missing-column error
(line 34), the empty-result warning (line 67), the generic processing
error of the `except` clause at lines 167-169 (which catches the
TypeError raised by the line-147 comparison), or the output record. -/
inductive PResult where
  | missingColumn (c : String)
  | emptyWarning
  | genericError
  | ok (o : Output)
deriving DecidableEq, Repr

/-- `process_data` (lines 28-169): validate, normalize, drop unusable
rows, filter eligible courses, resolve thresholds, compute overloads and
pay, aggregate, and build the two views; an exception while building the
non-zero view is caught at line 167 and turns the run into a generic
error with no output. -/
def process_data (cfg : Config) (t : Table) : PResult :=
  match validate t with
  | Except.error c => PResult.missingColumn c
  | Except.ok t₁ =>
      let rel := relevantRows t₁
      if rel.isEmpty then PResult.emptyWarning
      else
        let cs := rel.map mkCourse
        match nonZeroView? cfg cs with
        | none => PResult.genericError
        | some nz =>
            PResult.ok
              { data := fullView cfg cs
                nonZero := nz
                staffTotals :=
                  (staffKeys cs).map
                    (fun k => (k, staffOverload cs k, staffPay cfg cs k))
                grandTotalOverload := grandOverload cs
                grandTotalPay := grandPay cfg cs }

/-- The caller-visible content of the dataframe object after a run: the
column assignments of lines 38-44 write through the caller's object, so a
validated run leaves the table normalized in place; a failed validation
returns before any assignment. Every later stage works on fresh frames
(`dropna`, `.copy()`, `sort_values`). -/
def inputTableAfterRun (t : Table) : Table :=
  match validate t with
  | Except.error _ => t
  | Except.ok t₁ => normalize t₁

/-- Is a report row a detail row (neither summary nor blank)? -/
def isDetailB (r : ReportRow) : Bool :=
  !r.isSummary && !r.isBlank

/-- Numeric reading of a cell, empty/missing as 0 (for summing columns). -/
def cellQ : Cell → ℚ
  | Cell.num q => q
  | _ => 0

/-- Modelled from the spec: the eligibility predicate exactly as claim C1
words it — the keyword test on the case-insensitive title, and the
enrollment of the first row whose stored title equals the current row's
own exact title text. Used only to compare the claimed behavior with
`is_relevant_course`. -/
def specEligible (rows : List Row) (r : Row) : Bool :=
  match getCell r "Course Title" with
  | Cell.str s => kwB (strUpper s) && lookupPos rows s
  | _ => false

/-- Rule 1 of `get_base_students` on an uppercased title (line 75). -/
def ruleMixed123 (u : String) : Bool :=
  strContains u "MIXED" || strContains u " 1" || strContains u " 2" ||
    strContains u " 3"

/-- Rule 2 of `get_base_students` on an uppercased title (line 77). -/
def rule45 (u : String) : Bool :=
  strContains u " 4" || strContains u " 5"

/-- Rule 3 of `get_base_students` on an uppercased title (line 79). -/
def ruleKinder (u : String) : Bool :=
  strContains u "KINDER" || strContains u " K"

/-- Scenario A configuration: pay rate 1.25, four weeks. -/
def exCfgA : Config := { pay_rate := 5 / 4, number_of_weeks := 4 }

/-- Scenario A course: "PHYS ED 3" with 30 students, threshold 23. -/
def exCourseA : Course :=
  { year := Cell.nan, organization := Cell.nan, title := Cell.str "PHYS ED 3",
    staff := Cell.str "A", students := 30, base := 23 }

/-- A row whose keyword-matching title is not entirely uppercase. -/
def exC1Row : Row :=
  [("Course Title", Cell.str "Music 1"), ("Staff Name", Cell.str "A"),
    ("Total Students", Cell.num 30)]

/-- A one-row table around `exC1Row`. -/
def exC1Table : Table :=
  { cols := ["Course Title", "Staff Name", "Total Students"], rows := [exC1Row] }

/-- A row with an all-uppercase eligible title. -/
def exC1wRow : Row :=
  [("Course Title", Cell.str "ART 3"), ("Staff Name", Cell.str "B"),
    ("Total Students", Cell.num 25)]

/-- A one-row table around `exC1wRow`. -/
def exC1wTable : Table :=
  { cols := ["Course Title", "Staff Name", "Total Students"], rows := [exC1wRow] }

/-- A single row whose stored title "Art 1" is not uppercase. -/
def exRows10 : List Row :=
  [[("Course Title", Cell.str "Art 1"), ("Staff Name", Cell.str "A"),
    ("Total Students", Cell.num 30)]]

/-- A course with exactly one overload student ("ART 3", 24 students). -/
def exC5Course : Course :=
  { year := Cell.nan, organization := Cell.nan, title := Cell.str "ART 3",
    staff := Cell.str "J", students := 24, base := 23 }

/-- Two identical one-overload courses of staff "J". -/
def exCs5 : List Course := [exC5Course, exC5Course]

/-- A pay rate (0.0133) whose per-course pay rounds differently from the
rounded sum. -/
def exCfg5 : Config := { pay_rate := 133 / 10000, number_of_weeks := 1 }

/-- The staff key of `exCs5`. -/
def exK5 : Cell := Cell.str "J"

/-- A row whose `Max Students` cell is not parseable as a number. -/
def exT6Row : Row :=
  [("Course Title", Cell.str "MUSIC 1"), ("Staff Name", Cell.str "A"),
    ("Total Students", Cell.str "20"), ("Max Students", Cell.str "abc")]

/-- A table with a `Max Students` column holding the unparseable cell. -/
def exT6 : Table :=
  { cols := ["Course Title", "Staff Name", "Total Students", "Max Students"],
    rows := [exT6Row] }

/-- A table that lacks the `Staff Name` column. -/
def exT7 : Table :=
  { cols := ["Course Title", "Total Students"], rows := [] }

/-- A valid one-row table with one eligible course ("PHYS ED 3", 30
students), on which the run reaches the non-zero filter of line 147. -/
def exC8Table : Table :=
  { cols := ["Course Title", "Staff Name", "Total Students"],
    rows := [[("Course Title", Cell.str "PHYS ED 3"), ("Staff Name", Cell.str "A"),
      ("Total Students", Cell.num 30)]] }

/-- A valid table whose `Total Students` cell "abc" is rewritten in place
by the normalizer. -/
def exT9 : Table :=
  { cols := ["Course Title", "Staff Name", "Total Students"],
    rows := [[("Course Title", Cell.str "MUSIC 1"), ("Staff Name", Cell.str "A"),
      ("Total Students", Cell.str "abc")]] }

/-- A valid table on which the normalizer's in-place effect is observable. -/
def exT9ok : Table :=
  { cols := ["Course Title", "Staff Name", "Total Students"],
    rows := [[("Course Title", Cell.str "ART 2"), ("Staff Name", Cell.str "Z"),
      ("Total Students", Cell.str "28")]] }

section HelperLemmas

theorem getCell_setCell_same (r : Row) (c : String) (v : Cell) :
    getCell (setCell r c v) c = v := by
  induction r with
  | nil => simp [setCell, getCell]
  | cons p r ih =>
      obtain ⟨c₀, v₀⟩ := p
      by_cases h : c₀ = c <;> simp [setCell, getCell, h, ih]

theorem getCell_setCell_diff (r : Row) (c c' : String) (v : Cell) (h : c' ≠ c) :
    getCell (setCell r c' v) c = getCell r c := by
  induction r with
  | nil => simp [setCell, getCell, h]
  | cons p r ih =>
      obtain ⟨c₀, v₀⟩ := p
      by_cases h₀ : c₀ = c'
      · subst h₀; simp [setCell, getCell, h]
      · simp [setCell, h₀]
        by_cases h₁ : c₀ = c <;> simp [getCell, h₁, ih]

theorem normCol_cols (c : String) (f : Cell → Cell) (t : Table) :
    (normCol c f t).cols = t.cols := by
  unfold normCol; split <;> rfl

theorem normCol_rows_getElem? (c : String) (f : Cell → Cell) (t : Table) (i : ℕ) :
    (normCol c f t).rows[i]? =
      if c ∈ t.cols then
        (t.rows[i]?).map (fun r => setCell r c (f (getCell r c)))
      else t.rows[i]? := by
  unfold normCol
  by_cases h : c ∈ t.cols
  · rw [if_pos (List.elem_iff.mpr h), if_pos h]
    exact List.getElem?_map _ _ _
  · rw [if_neg (fun hc => h (List.elem_iff.mp hc)), if_neg h]

theorem normalize_cols (t : Table) : (normalize t).cols = t.cols := by
  unfold normalize
  rw [normCol_cols, normCol_cols, normCol_cols]

theorem normCol_rows_length (c : String) (f : Cell → Cell) (t : Table) :
    (normCol c f t).rows.length = t.rows.length := by
  unfold normCol; split <;> simp

theorem normalize_rows_length (t : Table) :
    (normalize t).rows.length = t.rows.length := by
  unfold normalize
  rw [normCol_rows_length, normCol_rows_length, normCol_rows_length]

theorem normalize_TS_read (t : Table) (i : ℕ)
    (hTS : "Total Students" ∈ t.cols) :
    ((normalize t).rows[i]?).map (fun r => getCell r "Total Students")
      = (t.rows[i]?).map
          (fun r => fillZero (toNumericCell (getCell r "Total Students"))) := by
  unfold normalize
  rw [normCol_rows_getElem?, normCol_rows_getElem?, normCol_rows_getElem?]
  simp only [normCol_cols]
  simp only [if_pos hTS]
  by_cases hM : "Max Students" ∈ t.cols
  · rw [if_pos hM]
    cases t.rows[i]? with
    | none => rfl
    | some r =>
        simp only [Option.map_map, Option.map_some', Function.comp_apply,
          Option.some.injEq]
        rw [getCell_setCell_same, getCell_setCell_diff _ _ _ _ (by decide),
          getCell_setCell_same]
  · rw [if_neg hM]
    cases t.rows[i]? with
    | none => rfl
    | some r =>
        simp only [Option.map_map, Option.map_some', Function.comp_apply,
          Option.some.injEq]
        rw [getCell_setCell_same, getCell_setCell_same]

theorem normalize_Max_read (t : Table) (i : ℕ)
    (hM : "Max Students" ∈ t.cols) :
    ((normalize t).rows[i]?).map (fun r => getCell r "Max Students")
      = (t.rows[i]?).map
          (fun r => toNumericCell (getCell r "Max Students")) := by
  unfold normalize
  rw [normCol_rows_getElem?, normCol_rows_getElem?, normCol_rows_getElem?]
  simp only [normCol_cols]
  simp only [if_pos hM]
  by_cases hTS : "Total Students" ∈ t.cols
  · simp only [if_pos hTS]
    cases t.rows[i]? with
    | none => rfl
    | some r =>
        simp only [Option.map_map, Option.map_some', Function.comp_apply,
          Option.some.injEq]
        rw [getCell_setCell_diff _ _ _ _ (by decide), getCell_setCell_same,
          getCell_setCell_diff _ _ _ _ (by decide)]
  · simp only [if_neg hTS]
    cases t.rows[i]? with
    | none => rfl
    | some r =>
        simp only [Option.map_some', Option.some.injEq]
        rw [getCell_setCell_same]

theorem normalize_other_read (t : Table) (i : ℕ) (c : String)
    (h₁ : c ≠ "Total Students") (h₂ : c ≠ "Max Students") :
    ((normalize t).rows[i]?).map (fun r => getCell r c)
      = (t.rows[i]?).map (fun r => getCell r c) := by
  unfold normalize
  rw [normCol_rows_getElem?, normCol_rows_getElem?, normCol_rows_getElem?]
  simp only [normCol_cols]
  by_cases hTS : "Total Students" ∈ t.cols
  · by_cases hM : "Max Students" ∈ t.cols
    · simp only [if_pos hTS, if_pos hM]
      cases t.rows[i]? with
      | none => rfl
      | some r =>
          simp only [Option.map_map, Option.map_some', Function.comp_apply,
            Option.some.injEq]
          rw [getCell_setCell_diff _ _ _ _ (Ne.symm h₁),
            getCell_setCell_diff _ _ _ _ (Ne.symm h₂),
            getCell_setCell_diff _ _ _ _ (Ne.symm h₁)]
    · simp only [if_pos hTS, if_neg hM]
      cases t.rows[i]? with
      | none => rfl
      | some r =>
          simp only [Option.map_map, Option.map_some', Function.comp_apply,
            Option.some.injEq]
          rw [getCell_setCell_diff _ _ _ _ (Ne.symm h₁),
            getCell_setCell_diff _ _ _ _ (Ne.symm h₁)]
  · by_cases hM : "Max Students" ∈ t.cols
    · simp only [if_pos hM, if_neg hTS]
      cases t.rows[i]? with
      | none => rfl
      | some r =>
          simp only [Option.map_some', Option.some.injEq]
          rw [getCell_setCell_diff _ _ _ _ (Ne.symm h₂)]
    · simp only [if_neg hTS, if_neg hM]

section SumLemmas

variable {M : Type} [AddCommMonoid M]

theorem sum_map_single (v : M) (k : Cell) :
    ∀ ks : List Cell, k ∈ ks → ks.Nodup →
      (ks.map (fun j => if k = j then v else 0)).sum = v := by
  intro ks
  induction ks with
  | nil => intro h; cases h
  | cons a t ih =>
      intro hmem hnd
      rcases List.mem_cons.mp hmem with h | h
      · subst h
        simp only [List.map_cons, List.sum_cons, if_pos rfl]
        have hz : (t.map (fun j => if k = j then v else (0 : M))).sum = 0 := by
          apply List.sum_eq_zero
          intro x hx
          rcases List.mem_map.mp hx with ⟨j, hj, rfl⟩
          have : k ≠ j := fun e => (List.nodup_cons.mp hnd).1 (e ▸ hj)
          simp [this]
        rw [hz, add_zero]
        simp
      · have hak : k ≠ a := by
          intro e
          exact (List.nodup_cons.mp hnd).1 (e ▸ h)
        simp only [List.map_cons, List.sum_cons, if_neg hak, zero_add]
        exact ih h (List.nodup_cons.mp hnd).2

theorem sum_map_add_split (l : List Cell) (g h : Cell → M) :
    (l.map (fun k => g k + h k)).sum = (l.map g).sum + (l.map h).sum := by
  induction l with
  | nil => simp
  | cons a t ih =>
      simp only [List.map_cons, List.sum_cons, ih]
      rw [add_add_add_comm]

theorem sum_groups (f : Course → M) :
    ∀ (cs : List Course) (ks : List Cell), ks.Nodup →
      (∀ c ∈ cs, c.staff ∈ ks) →
      (ks.map (fun k => ((cs.filter (fun c => decide (c.staff = k))).map f).sum)).sum
        = (cs.map f).sum := by
  intro cs
  induction cs with
  | nil => intro ks _ _; simp
  | cons c cs ih =>
      intro ks hnd hmem
      have h1 : ∀ k : Cell,
          (((c :: cs).filter (fun c0 => decide (c0.staff = k))).map f).sum
            = (if c.staff = k then f c else 0)
              + ((cs.filter (fun c0 => decide (c0.staff = k))).map f).sum := by
        intro k
        by_cases h : c.staff = k <;> simp [List.filter_cons, h]
      simp only [h1]
      rw [sum_map_add_split, sum_map_single (f c) c.staff ks
        (hmem c (List.mem_cons_self c cs)) hnd,
        ih ks hnd (fun c0 hc0 => hmem c0 (List.mem_cons_of_mem c hc0))]
      simp [List.map_cons, List.sum_cons]

theorem sum_map_filter_of_zero (p : Course → Bool) (f : Course → M) :
    ∀ l : List Course, (∀ a ∈ l, p a = false → f a = 0) →
      ((l.filter p).map f).sum = (l.map f).sum := by
  intro l
  induction l with
  | nil => intro _; simp
  | cons a t ih =>
      intro h
      by_cases hp : p a = true
      · rw [List.filter_cons, if_pos hp]
        simp only [List.map_cons, List.sum_cons]
        rw [ih (fun x hx => h x (List.mem_cons_of_mem a hx))]
      · have hz : f a = 0 := h a (List.mem_cons_self a t) (by simpa using hp)
        rw [List.filter_cons, if_neg hp, List.map_cons, List.sum_cons, hz, zero_add]
        exact ih (fun x hx => h x (List.mem_cons_of_mem a hx))

end SumLemmas

section AggLemmas

theorem staffKeys_nodup (cs : List Course) : (staffKeys cs).Nodup :=
  List.nodup_dedup _

theorem staff_mem_staffKeys {cs : List Course} {c : Course} (h : c ∈ cs) :
    c.staff ∈ staffKeys cs :=
  List.mem_dedup.mpr (List.mem_map_of_mem Course.staff h)

theorem grandOverload_eq_sum (cs : List Course) :
    grandOverload cs = (cs.map totalOverload).sum := by
  unfold grandOverload staffOverload coursesOf
  exact sum_groups totalOverload cs (staffKeys cs) (staffKeys_nodup cs)
    (fun c hc => staff_mem_staffKeys hc)

theorem grandPay_eq_sum (cfg : Config) (cs : List Course) :
    grandPay cfg cs = (cs.map (overloadPay cfg)).sum := by
  unfold grandPay staffPay coursesOf
  exact sum_groups (overloadPay cfg) cs (staffKeys cs) (staffKeys_nodup cs)
    (fun c hc => staff_mem_staffKeys hc)

theorem filter_detail_map (cfg : Config) (l : List Course) :
    (l.map (detailRow cfg)).filter isDetailB = l.map (detailRow cfg) := by
  induction l with
  | nil => rfl
  | cons c t ih => simp [List.filter_cons, isDetailB, detailRow, ih]

theorem staffBlock_filter_detail (cfg : Config) (cs : List Course) (k : Cell) :
    (staffBlock cfg cs k).filter isDetailB
      = (coursesOf cs k).map (detailRow cfg) := by
  unfold staffBlock
  rw [List.filter_append, filter_detail_map]
  have h2 : ([summaryRow cfg cs k, blankRow].filter isDetailB) = [] := by
    simp [isDetailB, summaryRow, blankRow, List.filter_cons]
  rw [h2, List.append_nil]

theorem filter_flatten_blocks (cfg : Config) (cs : List Course) :
    ∀ ks : List Cell,
      ((ks.map (staffBlock cfg cs)).flatten).filter isDetailB
        = (ks.map (fun k => (coursesOf cs k).map (detailRow cfg))).flatten := by
  intro ks
  induction ks with
  | nil => rfl
  | cons k t ih =>
      simp only [List.map_cons, List.flatten_cons, List.filter_append, ih,
        staffBlock_filter_detail]

theorem sum_map_flatten (f : ReportRow → ℚ) :
    ∀ L : List (List ReportRow),
      (L.flatten.map f).sum = (L.map (fun l => (l.map f).sum)).sum := by
  intro L
  induction L with
  | nil => rfl
  | cons l t ih =>
      simp only [List.flatten_cons, List.map_append, List.sum_append, ih,
        List.map_cons, List.sum_cons]

end AggLemmas

section MiscLemmas

theorem totalOverload_cast (c : Course) :
    ((totalOverload c : ℤ)) = max 0 ⌊c.students - (c.base : ℚ)⌋ := by
  unfold totalOverload
  rcases le_total (c.students - (c.base : ℚ)) 0 with h | h
  · rw [max_eq_left h]
    have hf : ⌊c.students - (c.base : ℚ)⌋ ≤ 0 := Int.floor_nonpos h
    rw [max_eq_left hf]
    simp
  · rw [max_eq_right h]
    have hf : 0 ≤ ⌊c.students - (c.base : ℚ)⌋ := Int.floor_nonneg.mpr h
    rw [max_eq_right hf, Int.toNat_of_nonneg hf]

theorem round2_zero : round2 0 = 0 := by norm_num [round2, rhalfEven]

theorem overloadPay_of_zero (cfg : Config) (c : Course)
    (h : totalOverload c = 0) : overloadPay cfg c = 0 := by
  unfold overloadPay
  rw [h]
  simp only [Nat.cast_zero, zero_mul]
  exact round2_zero

theorem contains_eq_false_of_not_mem {l : List String} {a : String}
    (h : a ∉ l) : l.contains a = false := by
  cases hc : l.contains a
  · rfl
  · exact absurd (List.elem_iff.mp hc) h

theorem firstMissing_spec (t : Table) :
    firstMissing t =
      if "Course Title" ∈ t.cols then
        if "Staff Name" ∈ t.cols then
          if "Total Students" ∈ t.cols then none else some "Total Students"
        else some "Staff Name"
      else some "Course Title" := by
  unfold firstMissing requiredColumns
  by_cases h1 : "Course Title" ∈ t.cols
  · rw [if_pos h1, List.find?_cons_of_neg _ (by simp [h1])]
    by_cases h2 : "Staff Name" ∈ t.cols
    · rw [if_pos h2, List.find?_cons_of_neg _ (by simp [h2])]
      by_cases h3 : "Total Students" ∈ t.cols
      · rw [if_pos h3, List.find?_cons_of_neg _ (by simp [h3])]
        rfl
      · rw [if_neg h3,
          List.find?_cons_of_pos _ (by simp [h3])]
    · rw [if_neg h2,
        List.find?_cons_of_pos _ (by simp [h2])]
  · rw [if_neg h1,
      List.find?_cons_of_pos _ (by simp [h1])]

theorem totalOverload_exCourseA : totalOverload exCourseA = 7 := by
  norm_num [totalOverload, exCourseA]
  decide

theorem overloadPay_exCourseA : overloadPay exCfgA exCourseA = 35 := by
  unfold overloadPay
  rw [totalOverload_exCourseA]
  norm_num [round2, rhalfEven, exCfgA]

theorem totalOverload_exC5 : totalOverload exC5Course = 1 := by
  norm_num [totalOverload, exC5Course]

theorem overloadPay_exC5 : overloadPay exCfg5 exC5Course = 1 / 100 := by
  unfold overloadPay
  rw [totalOverload_exC5]
  norm_num [round2, rhalfEven, exCfg5]

theorem staffPay_exC5 : staffPay exCfg5 exCs5 exK5 = 2 / 100 := by
  unfold staffPay
  rw [show coursesOf exCs5 exK5 = exCs5 from by decide]
  show overloadPay exCfg5 exC5Course + (overloadPay exCfg5 exC5Course + 0) = 2 / 100
  rw [overloadPay_exC5]
  norm_num

theorem roundSum_exC5 :
    round2 (((coursesOf exCs5 exK5).map (fun c =>
      (totalOverload c : ℚ) * exCfg5.pay_rate * (exCfg5.number_of_weeks : ℚ))).sum)
      = 3 / 100 := by
  rw [show coursesOf exCs5 exK5 = exCs5 from by decide]
  show round2 ((totalOverload exC5Course : ℚ) * exCfg5.pay_rate
      * (exCfg5.number_of_weeks : ℚ)
    + ((totalOverload exC5Course : ℚ) * exCfg5.pay_rate
      * (exCfg5.number_of_weeks : ℚ) + 0)) = 3 / 100
  rw [totalOverload_exC5]
  norm_num [round2, rhalfEven, exCfg5]

end MiscLemmas

end HelperLemmas

/-! ### Claim theorems -/

/-- Claim C1, counterexample: the claim as stated fails on the code. The
normalized row titled "Music 1" satisfies the claim's own predicate
(`specEligible`: a keyword is present case-insensitively, and the first
row matching the row's exact title text has 30 > 0 students), yet the
eligibility filter excludes it, because the code looks the title up in
its uppercased form and no row stores the title "MUSIC 1". -/
theorem C1_counterexample :
    specEligible (droppedRows (normalize exC1Table)) exC1Row = true ∧
    exC1Row ∈ droppedRows (normalize exC1Table) ∧
    exC1Row ∉ relevantRows exC1Table := by
  refine ⟨by decide, by decide, by decide⟩

/-- Claim C1, amended: a normalized row with a string title is eligible
iff it survives the drop stage, the uppercased title contains one of the
keywords MUSIC, PHYS ED, ART, CREATIVE, and the first row whose stored
title equals the UPPERCASED title (not the row's own exact title text)
has a positive student count. -/
theorem C1_eligibility (t : Table) (r : Row) (s : String)
    (hs : getCell r "Course Title" = Cell.str s) :
    r ∈ relevantRows t ↔
      r ∈ droppedRows (normalize t) ∧ kwB (strUpper s) = true ∧
        lookupPos (droppedRows (normalize t)) (strUpper s) = true := by
  have hpred : ∀ rows : List Row, is_relevant_course rows (Cell.str s)
      = (if kwB (strUpper s) then lookupPos rows (strUpper s) else false) :=
    fun rows => rfl
  unfold relevantRows filterRelevant
  rw [List.mem_filter]
  constructor
  · rintro ⟨hm, hp⟩
    rw [hs, hpred] at hp
    by_cases hk : kwB (strUpper s) = true
    · rw [if_pos hk] at hp
      exact ⟨hm, hk, hp⟩
    · rw [if_neg hk] at hp
      exact Bool.noConfusion hp
  · rintro ⟨hm, hk, hl⟩
    refine ⟨hm, ?_⟩
    rw [hs, hpred, if_pos hk]
    exact hl

/-- Witness for the amended claim C1 at a concrete table. -/
theorem C1_eligibility_witness : exC1wRow ∈ relevantRows exC1wTable :=
  (C1_eligibility exC1wTable exC1wRow "ART 3" (by decide)).mpr (by decide)

/-- Claim C2: `get_base_students` resolves the threshold by the first
matching rule in priority order — MIXED or " 1"/" 2"/" 3" gives 23, else
" 4"/" 5" gives 26, else KINDER/" K" gives 22, else 23 — all
case-insensitively, with non-string titles resolving to 23, and
"MUSIC KINDER" resolving to 22. -/
theorem C2_thresholds :
    (∀ s : String,
      (ruleMixed123 (strUpper s) = true → get_base_students (Cell.str s) = 23) ∧
      (ruleMixed123 (strUpper s) = false → rule45 (strUpper s) = true →
        get_base_students (Cell.str s) = 26) ∧
      (ruleMixed123 (strUpper s) = false → rule45 (strUpper s) = false →
        ruleKinder (strUpper s) = true → get_base_students (Cell.str s) = 22) ∧
      (ruleMixed123 (strUpper s) = false → rule45 (strUpper s) = false →
        ruleKinder (strUpper s) = false → get_base_students (Cell.str s) = 23)) ∧
    (∀ q : ℚ, get_base_students (Cell.num q) = 23) ∧
    get_base_students Cell.nan = 23 ∧
    get_base_students (Cell.str "MUSIC KINDER") = 22 := by
  refine ⟨?_, fun q => rfl, rfl, by decide⟩
  intro s
  have hdef : get_base_students (Cell.str s) =
      (if ruleMixed123 (strUpper s) then 23
       else if rule45 (strUpper s) then 26
       else if ruleKinder (strUpper s) then 22
       else 23) := rfl
  refine ⟨?_, ?_, ?_, ?_⟩
  · intro h1
    rw [hdef, if_pos h1]
  · intro h1 h2
    rw [hdef, if_neg (by simp [h1]), if_pos h2]
  · intro h1 h2 h3
    rw [hdef, if_neg (by simp [h1]), if_neg (by simp [h2]), if_pos h3]
  · intro h1 h2 h3
    rw [hdef, if_neg (by simp [h1]), if_neg (by simp [h2]), if_neg (by simp [h3])]

/-- Witness for claim C2: "PHYS ED 4" resolves by the second rule. -/
theorem C2_thresholds_witness : get_base_students (Cell.str "PHYS ED 4") = 26 :=
  ((C2_thresholds.1 "PHYS ED 4").2.1) (by decide) (by decide)

/-- Claim C3: per eligible course, the overload equals
max(0, totalStudents - baseStudents) truncated to an integer, it is never
negative, the pay is the rounded product with the rate and the weeks, and
Scenario A ("PHYS ED 3", 30 students, rate 1.25, 4 weeks) yields base 23,
overload 7 and pay 35.00. -/
theorem C3_overload_calculator :
    (∀ c : Course, ((totalOverload c : ℤ)) = max 0 ⌊c.students - (c.base : ℚ)⌋) ∧
    (∀ c : Course, 0 ≤ ((totalOverload c : ℤ))) ∧
    (∀ (cfg : Config) (c : Course),
      overloadPay cfg c
        = round2 ((totalOverload c : ℚ) * cfg.pay_rate * (cfg.number_of_weeks : ℚ))) ∧
    get_base_students (Cell.str "PHYS ED 3") = 23 ∧
    totalOverload exCourseA = 7 ∧ overloadPay exCfgA exCourseA = 35 :=
  ⟨totalOverload_cast, fun c => Int.natCast_nonneg _, fun cfg c => rfl,
    by decide, totalOverload_exCourseA, overloadPay_exCourseA⟩

/-- Claim C4: the grand total equals the sum of the per-staff totals,
which equals the sum over all eligible courses (the detail rows), both
for the overload count and for the pay; the detail rows of the full view
sum to the same values. -/
theorem C4_aggregation (cfg : Config) (cs : List Course) :
    (grandOverload cs = ((staffKeys cs).map (staffOverload cs)).sum ∧
      ((staffKeys cs).map (staffOverload cs)).sum = (cs.map totalOverload).sum ∧
      (((fullView cfg cs).filter isDetailB).map (fun r => cellQ r.overload)).sum
        = (cs.map (fun c => ((totalOverload c : ℚ)))).sum) ∧
    (grandPay cfg cs = ((staffKeys cs).map (staffPay cfg cs)).sum ∧
      ((staffKeys cs).map (staffPay cfg cs)).sum = (cs.map (overloadPay cfg)).sum ∧
      (((fullView cfg cs).filter isDetailB).map (fun r => cellQ r.pay)).sum
        = (cs.map (overloadPay cfg)).sum) := by
  have hview : ∀ f : ReportRow → ℚ,
      (((fullView cfg cs).filter isDetailB).map f).sum
        = ((staffKeys cs).map
            (fun k => ((coursesOf cs k).map (fun c => f (detailRow cfg c))).sum)).sum := by
    intro f
    show ((((staffKeys cs).map (staffBlock cfg cs)).flatten.filter isDetailB).map f).sum = _
    rw [filter_flatten_blocks, sum_map_flatten]
    congr 1
    rw [List.map_map]
    apply List.map_congr_left
    intro k _
    simp only [Function.comp_apply, List.map_map]
    rfl
  refine ⟨⟨rfl, grandOverload_eq_sum cs, ?_⟩, ⟨rfl, grandPay_eq_sum cfg cs, ?_⟩⟩
  · rw [hview]
    have hsg := sum_groups (M := ℚ) (fun c => ((totalOverload c : ℚ))) cs (staffKeys cs)
      (staffKeys_nodup cs) (fun c hc => staff_mem_staffKeys hc)
    simpa [coursesOf] using hsg
  · rw [hview]
    have hsg := sum_groups (M := ℚ) (overloadPay cfg) cs (staffKeys cs)
      (staffKeys_nodup cs) (fun c hc => staff_mem_staffKeys hc)
    simpa [coursesOf] using hsg

/-- Claim C5: a staff member's total pay is the sum of the per-course pays,
each already rounded to two decimals before summing, and the sum is not
re-rounded: at rate 0.0133 with one week, two one-overload courses give a
staff total of 0.02, while rounding the unrounded sum would give 0.03. -/
theorem C5_rounding_order :
    (∀ (cfg : Config) (cs : List Course) (k : Cell),
      staffPay cfg cs k
        = ((coursesOf cs k).map (fun c =>
            round2 ((totalOverload c : ℚ) * cfg.pay_rate
              * (cfg.number_of_weeks : ℚ)))).sum) ∧
    staffPay exCfg5 exCs5 exK5 = 2 / 100 ∧
    round2 (((coursesOf exCs5 exK5).map (fun c =>
      (totalOverload c : ℚ) * exCfg5.pay_rate * (exCfg5.number_of_weeks : ℚ))).sum)
      = 3 / 100 ∧
    staffPay exCfg5 exCs5 exK5
      ≠ round2 (((coursesOf exCs5 exK5).map (fun c =>
          (totalOverload c : ℚ) * exCfg5.pay_rate
            * (exCfg5.number_of_weeks : ℚ))).sum) := by
  refine ⟨fun cfg cs k => rfl, staffPay_exC5, roundSum_exC5, ?_⟩
  rw [staffPay_exC5, roundSum_exC5]
  norm_num

/-- Claim C6, counterexample: an unparseable `Max Students` cell does not
become zero after normalization — it becomes NaN, because the code only
zero-fills the `Total Students` column. -/
theorem C6_counterexample :
    parseNum "abc" = none ∧
    "Max Students" ∈ exT6.cols ∧
    getCell exT6Row "Max Students" = Cell.str "abc" ∧
    ((normalize exT6).rows.map (fun r => getCell r "Max Students")) = [Cell.nan] ∧
    Cell.nan ≠ Cell.num 0 :=
  ⟨by decide, by decide, by decide, by decide, by decide⟩

/-- Claim C6, amended: after normalization every `Total Students` cell is
the zero-filled numeric coercion of the original (so unparseable cells
become zero), while a `Max Students` cell is only coerced (so unparseable
cells become NaN, not zero). -/
theorem C6_normalizer (t : Table) (i : ℕ)
    (hTS : "Total Students" ∈ t.cols) :
    (((normalize t).rows[i]?).map (fun r => getCell r "Total Students")
      = (t.rows[i]?).map
          (fun r => fillZero (toNumericCell (getCell r "Total Students")))) ∧
    ("Max Students" ∈ t.cols →
      ((normalize t).rows[i]?).map (fun r => getCell r "Max Students")
        = (t.rows[i]?).map (fun r => toNumericCell (getCell r "Max Students"))) ∧
    (∀ s : String, parseNum s = none →
      fillZero (toNumericCell (Cell.str s)) = Cell.num 0 ∧
      toNumericCell (Cell.str s) = Cell.nan) := by
  refine ⟨normalize_TS_read t i hTS, fun hM => normalize_Max_read t i hM, ?_⟩
  intro s hp
  constructor <;> simp [toNumericCell, fillZero, hp]

/-- Witness for the amended claim C6 at the concrete table `exT6`. -/
theorem C6_normalizer_witness :
    ((normalize exT6).rows[0]?).map (fun r => getCell r "Total Students")
      = (exT6.rows[0]?).map
          (fun r => fillZero (toNumericCell (getCell r "Total Students"))) :=
  (C6_normalizer exT6 0 (by decide)).1

/-- Claim C7: the validator reports exactly the first missing column of
`Course Title`, `Staff Name`, `Total Students` in that order, producing no
output record in that case, and passes a table with all three columns
through unchanged, after which the run never reports a missing column. -/
theorem C7_validator (cfg : Config) (t : Table) :
    ("Course Title" ∉ t.cols →
      process_data cfg t = PResult.missingColumn "Course Title") ∧
    ("Course Title" ∈ t.cols → "Staff Name" ∉ t.cols →
      process_data cfg t = PResult.missingColumn "Staff Name") ∧
    ("Course Title" ∈ t.cols → "Staff Name" ∈ t.cols → "Total Students" ∉ t.cols →
      process_data cfg t = PResult.missingColumn "Total Students") ∧
    ("Course Title" ∈ t.cols → "Staff Name" ∈ t.cols → "Total Students" ∈ t.cols →
      validate t = Except.ok t ∧
        ∀ c : String, process_data cfg t ≠ PResult.missingColumn c) := by
  have hfm := firstMissing_spec t
  refine ⟨?_, ?_, ?_, ?_⟩
  · intro h1
    have hv : firstMissing t = some "Course Title" := by rw [hfm, if_neg h1]
    unfold process_data validate
    rw [hv]
  · intro h1 h2
    have hv : firstMissing t = some "Staff Name" := by
      rw [hfm, if_pos h1, if_neg h2]
    unfold process_data validate
    rw [hv]
  · intro h1 h2 h3
    have hv : firstMissing t = some "Total Students" := by
      rw [hfm, if_pos h1, if_pos h2, if_neg h3]
    unfold process_data validate
    rw [hv]
  · intro h1 h2 h3
    have hv : firstMissing t = none := by
      rw [hfm, if_pos h1, if_pos h2, if_pos h3]
    have hval : validate t = Except.ok t := by
      unfold validate
      rw [hv]
    refine ⟨hval, ?_⟩
    intro c
    unfold process_data
    rw [hval]
    by_cases he : (relevantRows t).isEmpty
    · simp [he]
    · cases hnz : nonZeroView? cfg ((relevantRows t).map mkCourse) <;>
        simp [he, hnz]

/-- Witness for claim C7 at a table lacking `Staff Name`. -/
theorem C7_validator_witness :
    process_data exCfgA exT7 = PResult.missingColumn "Staff Name" :=
  (C7_validator exCfgA exT7).2.1 (by decide) (by decide)

/-- Claim C8 (code bug): the claim describes the intended non-zero view
(blank, summary, or positive-overload detail rows; a subset of the full
view; hidden zero rows still counted), but the code never produces that
view. Every blank separator row stores the string `""` in `Total
Overload` (line 134), so the line-147 comparison `Total Overload > 0`
raises a TypeError (`cellGtZero?` is `none` on a string cell), the
filter of lines 147-151 aborts (`keepNonZero?`/`nonZeroView?` are
`none`), and the `except` clause of line 167 turns the whole run into
the generic processing error: on the valid one-eligible-course table
`exC8Table` the eligible set is non-empty and `process_data` returns
`genericError` instead of any output. -/
theorem C8_nonzero_view_bug :
    cellGtZero? (Cell.str "") = none ∧
    keepNonZero? blankRow = none ∧
    relevantRows exC8Table ≠ [] ∧
    nonZeroView? exCfgA ((relevantRows exC8Table).map mkCourse) = none ∧
    process_data exCfgA exC8Table = PResult.genericError :=
  ⟨rfl, rfl, by decide, by decide, by decide⟩

/-- Claim C9, counterexample: the pipeline does mutate the raw input table
in place — after a validated run on `exT9` the caller-visible table holds
a zero-filled numeric `Total Students` column where the raw table held the
string "abc". -/
theorem C9_counterexample : inputTableAfterRun exT9 ≠ exT9 := by decide

/-- Claim C9, amended: the Type Normalizer is the one stage that writes
through to the caller's table — after a validated run the caller-visible
table is exactly the normalized table; the columns, the row count and
every column other than `Total Students` and `Max Students` are unchanged,
and all later stages operate on fresh structures. -/
theorem C9_mutation (t : Table) (h : validate t = Except.ok t) :
    inputTableAfterRun t = normalize t ∧
    (normalize t).cols = t.cols ∧
    (normalize t).rows.length = t.rows.length ∧
    ∀ c : String, c ≠ "Total Students" → c ≠ "Max Students" →
      ∀ i : ℕ, ((normalize t).rows[i]?).map (fun r => getCell r c)
        = (t.rows[i]?).map (fun r => getCell r c) := by
  refine ⟨?_, normalize_cols t, normalize_rows_length t,
    fun c h₁ h₂ i => normalize_other_read t i c h₁ h₂⟩
  unfold inputTableAfterRun
  rw [h]

/-- Witness for the amended claim C9 at the concrete table `exT9ok`. -/
theorem C9_mutation_witness : inputTableAfterRun exT9ok = normalize exT9ok :=
  (C9_mutation exT9ok rfl).1

/-- Claim C10: a keyword-matching row is eligible only if some row's
stored `Course Title` is character-for-character equal to the uppercase
form of the current title and the first such row's `Total Students`
coerces to a positive number; when no row stores that uppercase title the
row is excluded. -/
theorem C10_uppercase_lookup (rows : List Row) (s : String) :
    (is_relevant_course rows (Cell.str s) = true →
      ∃ r₀, rows.find? (fun r =>
          decide (getCell r "Course Title" = Cell.str (strUpper s))) = some r₀ ∧
        getCell r₀ "Course Title" = Cell.str (strUpper s) ∧
        posNum (getCell r₀ "Total Students") = true) ∧
    ((∀ r ∈ rows, getCell r "Course Title" ≠ Cell.str (strUpper s)) →
      is_relevant_course rows (Cell.str s) = false) := by
  have hpred : is_relevant_course rows (Cell.str s)
      = (if kwB (strUpper s) then lookupPos rows (strUpper s) else false) := rfl
  constructor
  · intro h
    rw [hpred] at h
    by_cases hk : kwB (strUpper s) = true
    · rw [if_pos hk] at h
      unfold lookupPos at h
      cases hfind : rows.find? (fun r =>
          decide (getCell r "Course Title" = Cell.str (strUpper s))) with
      | none => rw [hfind] at h; exact Bool.noConfusion h
      | some r₀ =>
          rw [hfind] at h
          refine ⟨r₀, rfl, ?_, h⟩
          have hp := List.find?_some hfind
          exact of_decide_eq_true hp
    · rw [if_neg hk] at h
      exact Bool.noConfusion h
  · intro hall
    have hfind : rows.find? (fun r =>
        decide (getCell r "Course Title" = Cell.str (strUpper s))) = none := by
      rw [List.find?_eq_none]
      intro r hr
      simpa using hall r hr
    rw [hpred]
    by_cases hk : kwB (strUpper s) = true
    · rw [if_pos hk]
      unfold lookupPos
      rw [hfind]
    · rw [if_neg hk]

/-- Witness for claim C10: the lone row titled "Art 1" is excluded because
no row stores the uppercase title "ART 1". -/
theorem C10_uppercase_lookup_witness :
    is_relevant_course exRows10 (Cell.str "Art 1") = false :=
  (C10_uppercase_lookup exRows10 "Art 1").2 (by decide)

end Peachy
